import Mathlib

/-!
A verification development for the `imagecut` repository (three Python
modules: `interactive_splitter.py`, `image_splitter.py`,
`batch_processor.py`).  The planner and batch logic are embedded shallowly:
pure Lean functions mirror the Python control flow, machine integers are
`Nat`/`Int` (Python integers are unbounded, so no wraparound modelling is
needed), fallible operations return `Except`, and the file-system / codec
side effects are abstracted into explicit parameters (documented at each
definition).
-/

namespace ImageCut

/-- A skip area, embedding the Python dict `{'start': ..., 'end': ...}`
used by `InteractiveSplitter.split_by_positions` (the field `stop` embeds
the dict key `'end'`, which is a Lean keyword). -/
structure SkipArea where
  start : Nat
  stop : Nat
deriving Repr, DecidableEq

/-- One entry of the `split_info` list built by
`InteractiveSplitter.split_by_positions` /
`_split_with_global_numbering`: one physical output artifact.  The
`size_kb` and `download_url` fields of the Python dict are omitted
(`size_kb` reads the written file's size from the file system;
`download_url` is `"/download/" ++ sku ++ "/" ++ filename`, derived from
fields kept here). -/
structure SegmentOutput where
  index : Nat
  filename : String
  /-- Embeds `crop_box = (0, top, img_width, bottom)` from the source. -/
  crop_box : Nat × Nat × Nat × Nat
  /-- Embeds `dimensions = (img_width, bottom - top)` from the source. -/
  dimensions : Nat × Nat
  sku : String
  has_size_suffix : Bool
deriving Repr, DecidableEq

/-- The success payload of `split_by_positions` (the Python dict with
`"success": True`); `output_directory` is omitted as pure path I/O. -/
structure SplitResult where
  splits_created : Nat
  skipped_areas : Nat
  excluded_segments : Nat
  sku : String
  details : List SegmentOutput
deriving Repr, DecidableEq

/-- Python `f"{n:03d}"`: decimal rendering left-padded with zeros to at
least three characters. -/
def pad3 (n : Nat) : String :=
  let s := toString n
  if s.length ≥ 3 then s else String.mk (List.replicate (3 - s.length) '0') ++ s

/-- The skip-area overlap test of `split_by_positions` (line 237) and
`_split_with_global_numbering` (line 432):
`any(not (bottom <= a['start'] or top >= a['end']) for a in skip_areas)`. -/
def isInSkipArea (top bottom : Nat) (skip_areas : List SkipArea) : Bool :=
  skip_areas.any (fun a => !(bottom ≤ a.start || top ≥ a.stop))

/-- The artifact-emission step for one surviving segment: the mandatory
base save (lines 257-277) followed, when the segment's index is in
`size_segments`, by the `-size`-suffixed duplicate save of the same
cropped image (lines 279-300).  `nameIdx` is the index used in the
filename and recorded in the entries (`segment_index` locally,
`global_segment_index` in the global-numbering variant); `hasSize` is the
computed `segment_index in size_segments` test. -/
def emitSegment (sku : String) (img_width : Nat) (nameIdx top bottom : Nat)
    (hasSize : Bool) : List SegmentOutput :=
  let base : SegmentOutput :=
    { index := nameIdx
      filename := sku ++ "_" ++ pad3 nameIdx ++ ".jpg"
      crop_box := (0, top, img_width, bottom)
      dimensions := (img_width, bottom - top)
      sku := sku
      has_size_suffix := false }
  if hasSize then
    [base,
     { base with
        filename := sku ++ "_" ++ pad3 nameIdx ++ "-size.jpg"
        has_size_suffix := true }]
  else
    [base]

/-- Consecutive boundary pairs: the Python loop
`for i in range(len(sorted_positions) - 1)` reading
`top = sorted_positions[i]; bottom = sorted_positions[i+1]`. -/
def boundaryPairs : List Nat → List (Nat × Nat)
  | a :: b :: rest => (a, b) :: boundaryPairs (b :: rest)
  | _ => []

/-- The main loop of `split_by_positions` (lines 220-302), carrying
`segment_index` and accumulating `split_info` together with
`excluded_by_segment_count`. -/
def planSegments (sku : String) (img_width : Nat) (skip_areas : List SkipArea)
    (excluded_segments size_segments : List Nat) :
    List (Nat × Nat) → Nat → List SegmentOutput × Nat
  | [], _ => ([], 0)
  | (top, bottom) :: rest, segment_index =>
    if segment_index ∈ excluded_segments then
      let (info, cnt) := planSegments sku img_width skip_areas excluded_segments
        size_segments rest (segment_index + 1)
      (info, cnt + 1)
    else if isInSkipArea top bottom skip_areas then
      planSegments sku img_width skip_areas excluded_segments size_segments
        rest (segment_index + 1)
    else
      let entries := emitSegment sku img_width segment_index top bottom
        (segment_index ∈ size_segments)
      let (info, cnt) := planSegments sku img_width skip_areas excluded_segments
        size_segments rest (segment_index + 1)
      (entries ++ info, cnt)

/-- Embeds `sorted([0] + cut_positions + [img_height])` (line 214): Python's
stable ascending sort, embedded as insertion sort (equal `Nat`s are
indistinguishable, so stability is immaterial). -/
def sorted_positions (cut_positions : List Nat) (img_height : Nat) : List Nat :=
  List.insertionSort (· ≤ ·) ([0] ++ cut_positions ++ [img_height])

/-- Embeds `InteractiveSplitter.split_by_positions` (lines 187-317).  The image is
modelled as already loaded with the given width and height; the guard
`not self.current_image_path or not cut_positions` (line 189) therefore
reduces to the emptiness test on `cut_positions`, and the SKU guard
(line 192) to the emptiness test on `sku`.  File writes are pure here:
each save is recorded as a `SegmentOutput`. -/
def split_by_positions (sku : String) (img_width img_height : Nat)
    (cut_positions : List Nat) (skip_areas : List SkipArea)
    (excluded_segments size_segments : List Nat) : Except String SplitResult :=
  if cut_positions.isEmpty then
    Except.error "画像が読み込まれていないか、カット位置が指定されていません"
  else if sku.isEmpty then
    Except.error "SKU（商品コード）が入力されていません"
  else
    let pairs := boundaryPairs (sorted_positions cut_positions img_height)
    let (split_info, excluded_by_segment_count) :=
      planSegments sku img_width skip_areas excluded_segments size_segments pairs 1
    Except.ok
      { splits_created := split_info.length
        skipped_areas := skip_areas.length
        excluded_segments := excluded_by_segment_count
        sku := sku
        details := split_info }

/-- Sum of `bottom - top` over the consecutive boundary pairs of a
position list (the total height covered by all planned segments, dropped
or not). -/
def heightSum : List Nat → Nat
  | a :: b :: rest => (b - a) + heightSum (b :: rest)
  | _ => 0

/-- The main loop of `_split_with_global_numbering` (lines 416-496): like
`planSegments` but carrying two counters — the local `segment_index` used
for the exclusion / skip-area / size-suffix membership tests, and
`global_segment_index` used for filenames and recorded indices.  Only the
surviving branch advances the global counter (line 496); the two drop
branches advance the local counter alone. -/
def planSegmentsGlobal (sku : String) (img_width : Nat)
    (skip_areas : List SkipArea) (excluded_segments size_segments : List Nat) :
    List (Nat × Nat) → Nat → Nat → List SegmentOutput × Nat
  | [], _, _ => ([], 0)
  | (top, bottom) :: rest, segment_index, global_segment_index =>
    if segment_index ∈ excluded_segments then
      let (info, cnt) := planSegmentsGlobal sku img_width skip_areas
        excluded_segments size_segments rest (segment_index + 1) global_segment_index
      (info, cnt + 1)
    else if isInSkipArea top bottom skip_areas then
      planSegmentsGlobal sku img_width skip_areas excluded_segments size_segments
        rest (segment_index + 1) global_segment_index
    else
      let entries := emitSegment sku img_width global_segment_index top bottom
        (segment_index ∈ size_segments)
      let (info, cnt) := planSegmentsGlobal sku img_width skip_areas
        excluded_segments size_segments rest (segment_index + 1)
        (global_segment_index + 1)
      (entries ++ info, cnt)

/-- Embeds `InteractiveSplitter._split_with_global_numbering` (lines 386-511),
modelled like `split_by_positions`: the image is the given
width × height, `start_index` seeds the global counter. -/
def split_with_global_numbering (sku : String) (img_width img_height : Nat)
    (cut_positions : List Nat) (skip_areas : List SkipArea)
    (excluded_segments size_segments : List Nat) (start_index : Nat) :
    Except String SplitResult :=
  if cut_positions.isEmpty then
    Except.error "画像が読み込まれていないか、カット位置が指定されていません"
  else
    let pairs := boundaryPairs (sorted_positions cut_positions img_height)
    let (split_info, excluded_by_segment_count) :=
      planSegmentsGlobal sku img_width skip_areas excluded_segments size_segments
        pairs 1 start_index
    Except.ok
      { splits_created := split_info.length
        skipped_areas := skip_areas.length
        excluded_segments := excluded_by_segment_count
        sku := sku
        details := split_info }

/-- The per-image loop of `InteractiveSplitter.batch_process` (lines
331-371) in the `global_numbering=True` branch: each uploaded image
(modelled by its width × height) is loaded and split with the carried
`global_index`, which advances by `result['splits_created']` exactly when
the per-file result is not an error (lines 347-349).  Each element of the
output pairs the start index a file was given with that file's result. -/
def batchGlobalRuns (sku : String) (cut_positions : List Nat)
    (skip_areas : List SkipArea) (excluded_segments size_segments : List Nat) :
    List (Nat × Nat) → Nat → List (Nat × Except String SplitResult)
  | [], _ => []
  | (w, h) :: rest, global_index =>
    match split_with_global_numbering sku w h cut_positions skip_areas
        excluded_segments size_segments global_index with
    | Except.ok r =>
      (global_index, Except.ok r) ::
        batchGlobalRuns sku cut_positions skip_areas excluded_segments
          size_segments rest (global_index + r.splits_created)
    | Except.error e =>
      (global_index, Except.error e) ::
        batchGlobalRuns sku cut_positions skip_areas excluded_segments
          size_segments rest global_index

/-- Embeds `InteractiveSplitter.batch_process` with `global_numbering=True`
(lines 319-384): the carried index starts at 1 (line 329). -/
def batch_process (sku : String) (images : List (Nat × Nat))
    (cut_positions : List Nat) (skip_areas : List SkipArea)
    (excluded_segments size_segments : List Nat) :
    List (Nat × Except String SplitResult) :=
  batchGlobalRuns sku cut_positions skip_areas excluded_segments size_segments
    images 1

/-- Number of surviving (non-dropped) boundary pairs, counting with the
local segment index starting at the given value: a pair survives when its
index is not excluded and it overlaps no skip area. -/
def survivingCount (skip_areas : List SkipArea)
    (excluded_segments : List Nat) : List (Nat × Nat) → Nat → Nat
  | [], _ => 0
  | (top, bottom) :: rest, idx =>
    (if idx ∉ excluded_segments ∧ ¬isInSkipArea top bottom skip_areas then 1 else 0)
      + survivingCount skip_areas excluded_segments rest (idx + 1)

/-- Number of surviving boundary pairs whose local index is additionally
in the size-suffix set (each such pair emits a second artifact). -/
def survivingSizeCount (skip_areas : List SkipArea)
    (excluded_segments size_segments : List Nat) : List (Nat × Nat) → Nat → Nat
  | [], _ => 0
  | (top, bottom) :: rest, idx =>
    (if idx ∉ excluded_segments ∧ ¬isInSkipArea top bottom skip_areas
        ∧ idx ∈ size_segments then 1 else 0)
      + survivingSizeCount skip_areas excluded_segments size_segments rest (idx + 1)

/-! ### `image_splitter.py` — grid (non-interactive) mode -/

/-- One entry of `split_info` in `ImageSplitter.split_image`
(lines 133-138): crop coordinates are `Int` because
`top = i * target_height - i * overlap` is a Python integer that can go
negative when `overlap > target_height`. -/
structure GridSegment where
  index : Nat
  filename : String
  /-- Embeds `crop_box = (0, top, img_width, bottom)` from the source. -/
  crop_box : Int × Int × Int × Int
  output_size : Nat × Nat
deriving Repr, DecidableEq

/-- Success payload of `ImageSplitter.split_image` (lines 140-145);
`output_directory` is omitted as pure path I/O. -/
structure GridSplitResult where
  splits_created : Nat
  details : List GridSegment
deriving Repr, DecidableEq

/-- The crop-range computation for grid segment `i` (0-based), lines
102-108: `top = i*target_height - i*overlap`, `bottom = top +
target_height`, then `if bottom > img_height: bottom = img_height; top =
bottom - target_height`. -/
def gridCrop (img_height target_height overlap : Nat) (i : Nat) : Int × Int :=
  let top : Int := (i : Int) * target_height - (i : Int) * overlap
  let bottom : Int := top + target_height
  if bottom > (img_height : Int) then
    ((img_height : Int) - target_height, (img_height : Int))
  else
    (top, bottom)

/-- The crop boxes produced by the grid loop of `split_image`
(lines 95-111): `splits = img_height // target_height` iterations. -/
def gridSegments (img_height target_height overlap : Nat) : List (Int × Int) :=
  (List.range (img_height / target_height)).map
    (gridCrop img_height target_height overlap)

/-- Outcome of a Python call: a normal return, a returned structured
failure dict (`{"success": False, "error": msg}` — note it carries only
the message), or an exception propagating out of the callee. -/
inductive PyOutcome (α : Type) where
  | ok (a : α)
  | failure (msg : String)
  | raised (msg : String)
deriving Repr, DecidableEq

/-- The named output formats of the configuration
(`config["output_formats"]`), as an association list
name ↦ (width, height). -/
def FormatTable := List (String × Nat × Nat)

/-- Embeds `ImageSplitter.split_image` (lines 76-151).  Two statements run
*before* the `try` (line 89) and can therefore raise past the function:
the unsupported-format check (lines 78-79, `raise ValueError`), and the
unguarded `output_path.mkdir(parents=True, exist_ok=True)` (lines 86-87),
whose filesystem errors (permission denied, a file occupying the path)
propagate even when the format is supported — `mkdir` abstracts that
call's outcome.  The guarded I/O region (everything inside the `try`,
lines 89-145: `Image.open`, crops, saves) is abstracted by `load`:
`Except.ok (w, h)` models a readable source of that size with all writes
succeeding, `Except.error e` models any exception raised inside the `try`
(corrupt source, write failure), which the `except` (lines 147-151) turns
into the structured failure dict. -/
def split_image (config : FormatTable) (overlap : Nat) (base_name : String)
    (output_format : String) (mkdir : Except String Unit)
    (load : Except String (Nat × Nat)) : PyOutcome GridSplitResult :=
  match config.lookup output_format with
  | none => PyOutcome.raised ("未対応フォーマット: " ++ output_format)
  | some (target_width, target_height) =>
    match mkdir with
    | Except.error e => PyOutcome.raised e
    | Except.ok _ =>
    match load with
    | Except.error e => PyOutcome.failure e
    | Except.ok (img_width, img_height) =>
      let splits := img_height / target_height
      let details := (List.range splits).map (fun i =>
        let tb := gridCrop img_height target_height overlap i
        { index := i + 1
          filename := base_name ++ "_" ++ output_format ++ "_" ++ pad3 (i + 1) ++ ".jpg"
          crop_box := (0, tb.1, (img_width : Int), tb.2)
          output_size := (target_width, target_height) : GridSegment })
      PyOutcome.ok { splits_created := details.length, details := details }

/-! ### `batch_processor.py` — resumable parallel batch -/

/-- Per-file result collected by the batch coordinator: the success flag
and the source path recorded in every result dict
(`result["source_file"] = str(image_path)`, lines 30, 37, 128). -/
structure FileResult where
  success : Bool
  error : Option String
  source_file : String
deriving Repr, DecidableEq

/-- Embeds `BatchProcessor.process_single_image` (lines 26-39): it calls
`split_image`, attaches the source path, and converts any exception into
a failure dict that also carries the path — including the exceptions
`split_image` itself raises (unsupported format, directory-creation
failure).  It never lets an exception escape. -/
def process_single_image (config : FormatTable) (overlap : Nat)
    (image_path : String) (output_format : String)
    (mkdir : Except String Unit) (load : Except String (Nat × Nat)) : FileResult :=
  match split_image config overlap image_path output_format mkdir load with
  | PyOutcome.ok _ => { success := true, error := none, source_file := image_path }
  | PyOutcome.failure e =>
    { success := false, error := some e, source_file := image_path }
  | PyOutcome.raised e =>
    { success := false, error := some e, source_file := image_path }

/-- The filtering step of `process_directory_parallel` (line 71):
`remaining_files = [f for f in image_files if str(f) not in processed_files]`. -/
def remainingFiles (processed files : List String) : List String :=
  files.filter (fun f => !processed.contains f)

/-- The completion loop of `process_directory_parallel` (lines 90-130)
with a resume file configured: for every completed transform the result is
appended and the file is added to `processed_files` (lines 110-112)
*unconditionally with respect to the result's success flag*.  `transform`
abstracts `process_single_image`'s success for each file; the worker-pool
completion order is abstracted by processing the dispatched list in order
(the accumulated set does not depend on the order).  Returns the collected
results and the final `processed_files` content, which line 134
(`save_resume_data`) then persists. -/
def batchLoop (transform : String → Bool) :
    List String → List String → List FileResult × List String
  | [], processed => ([], processed)
  | f :: rest, processed =>
    let result : FileResult :=
      { success := transform f
        error := if transform f then none else some "error"
        source_file := f }
    let (rs, finalProcessed) := batchLoop transform rest (processed ++ [f])
    (result :: rs, finalProcessed)

/-- Embeds `BatchProcessor.process_directory_parallel` (lines 41-139) with a
resume file configured, after directory scanning: `processedBefore` is the
`processed_files` set loaded from the resume file (lines 63-67), `files`
the scanned image list.  Returns the result list and the persisted
`processed_files` set. -/
def process_directory_parallel (processedBefore files : List String)
    (transform : String → Bool) : List FileResult × List String :=
  batchLoop transform (remainingFiles processedBefore files) processedBefore

/-! ### Helper lemmas on sorted boundary lists -/

/-- In a list that is pairwise `≤`-ordered, the head is a lower bound. -/
lemma head_le_of_pairwise (l : List Nat) (h : l ≠ [])
    (hp : l.Pairwise (· ≤ ·)) (x : Nat) (hx : x ∈ l) : l.head h ≤ x := by
  cases l with
  | nil => exact absurd rfl h
  | cons a t =>
    simp only [List.head_cons]
    rcases List.mem_cons.mp hx with rfl | hxt
    · exact le_refl x
    · exact (List.pairwise_cons.mp hp).1 x hxt

/-- In a list that is pairwise `≤`-ordered, the last element is an upper
bound. -/
lemma le_getLast_of_pairwise (l : List Nat) (h : l ≠ [])
    (hp : l.Pairwise (· ≤ ·)) (x : Nat) (hx : x ∈ l) : x ≤ l.getLast h := by
  induction l with
  | nil => exact absurd rfl h
  | cons a t ih =>
    cases t with
    | nil =>
      simp only [List.mem_singleton] at hx
      subst hx
      rfl
    | cons b t' =>
      rw [List.getLast_cons (by simp : b :: t' ≠ [])]
      rcases List.mem_cons.mp hx with rfl | hxt
      · exact (List.pairwise_cons.mp hp).1 _ (List.getLast_mem _)
      · exact ih (by simp) (List.pairwise_cons.mp hp).2 hxt

/-- Telescoping: over a `≤`-sorted position list, the heights of the
consecutive boundary pairs sum to last minus first. -/
lemma heightSum_telescope (l : List Nat) (h : l ≠ [])
    (hp : l.Pairwise (· ≤ ·)) : heightSum l = l.getLast h - l.head h := by
  induction l with
  | nil => exact absurd rfl h
  | cons a t ih =>
    cases t with
    | nil => simp [heightSum, List.getLast]
    | cons b t' =>
      have htne : b :: t' ≠ [] := by simp
      have hab : a ≤ b := (List.pairwise_cons.mp hp).1 b (by simp)
      have hbl : b ≤ (b :: t').getLast htne :=
        le_getLast_of_pairwise _ htne (List.pairwise_cons.mp hp).2 b (by simp)
      rw [show heightSum (a :: b :: t') = (b - a) + heightSum (b :: t') from rfl,
        ih htne (List.pairwise_cons.mp hp).2, List.getLast_cons htne]
      simp only [List.head_cons]
      omega

/-- C9: for every image height and every cut-position list with all
positions at most the height, the consecutive intervals of
`sorted([0] + cuts + [height])` partition the full extent: the heights of
all boundary pairs — dropped or not — sum to exactly the image height. -/
theorem boundary_heights_sum_to_height (img_height : Nat)
    (cut_positions : List Nat) (hb : ∀ c ∈ cut_positions, c ≤ img_height) :
    heightSum (sorted_positions cut_positions img_height) = img_height := by
  have hperm : List.Perm (sorted_positions cut_positions img_height)
      ([0] ++ cut_positions ++ [img_height]) := List.perm_insertionSort _ _
  have hsorted : (sorted_positions cut_positions img_height).Pairwise (· ≤ ·) :=
    List.sorted_insertionSort _ _
  have hmem0 : (0 : Nat) ∈ sorted_positions cut_positions img_height :=
    hperm.mem_iff.mpr (by simp)
  have hmemH : img_height ∈ sorted_positions cut_positions img_height :=
    hperm.mem_iff.mpr (by simp)
  have hne : sorted_positions cut_positions img_height ≠ [] :=
    List.ne_nil_of_mem hmem0
  have hub : ∀ x ∈ sorted_positions cut_positions img_height, x ≤ img_height := by
    intro x hx
    have hx' := hperm.mem_iff.mp hx
    simp only [List.append_assoc, List.mem_append, List.mem_singleton,
      List.mem_cons, List.not_mem_nil, or_false] at hx'
    rcases hx' with rfl | hx' | rfl
    · exact Nat.zero_le _
    · exact hb x hx'
    · exact le_refl _
  have hhead : (sorted_positions cut_positions img_height).head hne = 0 :=
    Nat.le_zero.mp (head_le_of_pairwise _ hne hsorted 0 hmem0)
  have hlast : (sorted_positions cut_positions img_height).getLast hne = img_height :=
    le_antisymm (hub _ (List.getLast_mem hne))
      (le_getLast_of_pairwise _ hne hsorted img_height hmemH)
  rw [heightSum_telescope _ hne hsorted, hhead, hlast, Nat.sub_zero]

/-- Witness for C9 at the spec's concrete boundary set. -/
theorem boundary_heights_sum_to_height_witness :
    heightSum (sorted_positions [1000, 2000] 3000) = 3000 :=
  boundary_heights_sum_to_height 3000 [1000, 2000] (by decide)

/-- C3 counterexample: with zero cut positions the code hits the guard
`if not self.current_image_path or not cut_positions` (line 189) and
returns the error dict — it does not produce a single whole-image
segment. -/
theorem zero_cuts_counterexample :
    split_by_positions "SKU1" 1080 3000 [] [] [] []
      = Except.error "画像が読み込まれていないか、カット位置が指定されていません" := rfl

/-- C3 amended: for every image and every configuration, invoking the
splitting operation with zero cut positions returns the
no-image-or-no-cut-positions error, never a segment list. -/
theorem zero_cuts_returns_error (sku : String) (img_width img_height : Nat)
    (skip_areas : List SkipArea) (excluded_segments size_segments : List Nat) :
    split_by_positions sku img_width img_height [] skip_areas
        excluded_segments size_segments
      = Except.error "画像が読み込まれていないか、カット位置が指定されていません" := rfl

/-- C2 counterexample: image height 10, one cut at 5, and the zero-width
skip area `{start: 3, end: 3}`: the first segment `[0, 5)` satisfies
`not (5 <= 3 or 0 >= 3)` and is dropped, so only one artifact is produced
instead of the two produced with no skip area — the outputs differ. -/
theorem zero_width_skip_counterexample :
    (split_by_positions "SKU1" 100 10 [5] [⟨3, 3⟩] [] []).toOption.map
        (fun r => r.splits_created) = some 1
    ∧ (split_by_positions "SKU1" 100 10 [5] [] [] []).toOption.map
        (fun r => r.splits_created) = some 2 := by
  constructor <;> rfl

/-- C2 amended: the half-open overlap test marks a segment
`[top, bottom)` as overlapping a zero-width skip area at position `s`
exactly when the segment strictly contains `s` (`top < s < bottom`); so a
zero-width skip area does drop the segment strictly containing its
position, while one touching a segment boundary (or outside it) drops
nothing. -/
theorem zero_width_skip_drops_iff (top bottom s : Nat) :
    isInSkipArea top bottom [⟨s, s⟩] = true ↔ top < s ∧ s < bottom := by
  simp only [isInSkipArea, List.any_cons, List.any_nil, Bool.or_false,
    Bool.not_eq_eq_eq_not, Bool.not_true, Bool.or_eq_false_iff,
    decide_eq_false_iff_not, not_le]
  omega

/-- C5: on the failing input — duplicate cut position 1000 — the planner
emits the zero-height crop box `(0, 1000, 100, 1000)` as segment 2: the
identical adjacent boundaries produced by sorting are neither rejected
nor collapsed.  (At runtime the subsequent JPEG save of the zero-height
crop raises, aborting the whole request after segment 1 was already
written.) -/
theorem zero_height_crop_emitted :
    (split_by_positions "SKU1" 100 3000 [1000, 1000] [] [] []).toOption.map
        (fun r => r.details.map (fun e => e.crop_box))
      = some [(0, 0, 100, 1000), (0, 1000, 100, 1000), (0, 1000, 100, 3000)]
    ∧ (split_by_positions "SKU1" 100 3000 [1000, 1000] [] [] []).toOption.map
        (fun r => r.details.any (fun e => e.crop_box.2.1 == e.crop_box.2.2.2))
      = some true := by
  constructor <;> rfl

/-! ### Batch processor: resume semantics -/

/-- The completion loop adds every dispatched file to `processed_files`,
regardless of its result. -/
lemma batchLoop_processed (transform : String → Bool) :
    ∀ (fs processed : List String),
      (batchLoop transform fs processed).2 = processed ++ fs := by
  intro fs
  induction fs with
  | nil => intro processed; simp [batchLoop]
  | cons f rest ih =>
    intro processed
    simp [batchLoop, ih (processed ++ [f])]

/-- C10: with a resume file configured, every file dispatched in a run is
in the persisted processed set afterwards — whether its transform
succeeded or failed (`transform` is arbitrary, so in particular it may
fail on `f`) — and a subsequent resumed run over the same directory does
not dispatch it again: failed files are never retried. -/
theorem failed_files_not_retried (processedBefore files : List String)
    (transform : String → Bool) (f : String)
    (hf : f ∈ files) (hnew : f ∉ processedBefore) :
    f ∈ (process_directory_parallel processedBefore files transform).2
    ∧ f ∉ remainingFiles
        (process_directory_parallel processedBefore files transform).2 files := by
  have hrem : f ∈ remainingFiles processedBefore files := by
    simp only [remainingFiles, List.mem_filter, Bool.not_eq_true',
      List.contains, List.elem_eq_mem, decide_eq_false_iff_not]
    exact ⟨hf, hnew⟩
  have hfinal : (process_directory_parallel processedBefore files transform).2
      = processedBefore ++ remainingFiles processedBefore files := by
    simp [process_directory_parallel, batchLoop_processed]
  constructor
  · rw [hfinal]
    exact List.mem_append.mpr (Or.inr hrem)
  · rw [hfinal]
    simp only [remainingFiles, List.mem_filter, Bool.not_eq_true',
      List.contains, List.elem_eq_mem, decide_eq_false_iff_not, List.mem_append,
      not_and, not_not]
    intro _
    exact Or.inr (by
      simpa only [remainingFiles, List.mem_filter, Bool.not_eq_true',
        List.contains, List.elem_eq_mem, decide_eq_false_iff_not] using hrem)

/-- Witness for C10: a single-file directory whose transform fails; the
file ends up in the persisted set and the resumed run dispatches
nothing for it. -/
theorem failed_files_not_retried_witness :
    "img1.jpg" ∈ (process_directory_parallel [] ["img1.jpg"]
        (fun _ => false)).2
    ∧ "img1.jpg" ∉ remainingFiles
        (process_directory_parallel [] ["img1.jpg"] (fun _ => false)).2
        ["img1.jpg"] :=
  failed_files_not_retried [] ["img1.jpg"] (fun _ => false) "img1.jpg"
    (by simp) (by simp)

/-! ### Grid planner -/

/-- With a positive target height, the clamp of `gridCrop` never fires
inside the loop range: every in-range segment already ends at or before
the image height. -/
lemma gridCrop_in_range (img_height target_height overlap : Nat)
    (i : Nat) (hi : i < img_height / target_height) :
    gridCrop img_height target_height overlap i
      = ((i : Int) * target_height - (i : Int) * overlap,
         (i : Int) * target_height - (i : Int) * overlap + target_height) := by
  have h1 : (i + 1) * target_height ≤ img_height :=
    Nat.le_trans (Nat.mul_le_mul_right _ (Nat.succ_le_of_lt hi))
      (Nat.div_mul_le_self img_height target_height)
  have h1' : ((i : Int) + 1) * (target_height : Int) ≤ (img_height : Int) := by
    exact_mod_cast h1
  have h2 : (0 : Int) ≤ (i : Int) * (overlap : Int) :=
    mul_nonneg (Int.natCast_nonneg i) (Int.natCast_nonneg overlap)
  have hno : ¬((i : Int) * target_height - (i : Int) * overlap + target_height
      > (img_height : Int)) := by
    nlinarith
  simp only [gridCrop, if_neg hno]

/-- C8: in grid mode with positive target height `T` and any overlap `v`,
the planner produces exactly `H div T` crop ranges; range `i` (0-based) is
`top = i*T - i*v`, `bottom = top + T` (the clamp never needs to move the
bottom past `H`: every bottom is already at most `H`); every produced
range has height exactly `T`; and on the concrete scenario `H = 3000`,
`T = 1000`, `v = 0` the result is exactly the three non-overlapping
height-1000 ranges ending at 3000. -/
theorem grid_planner_shape (img_height target_height overlap : Nat)
    (_hT : 0 < target_height) :
    (gridSegments img_height target_height overlap).length
        = img_height / target_height
    ∧ (∀ i, i < img_height / target_height →
        (gridSegments img_height target_height overlap)[i]?
          = some ((i : Int) * target_height - (i : Int) * overlap,
              (i : Int) * target_height - (i : Int) * overlap + target_height)
        ∧ (i : Int) * target_height - (i : Int) * overlap + target_height
            ≤ (img_height : Int))
    ∧ (∀ p ∈ gridSegments img_height target_height overlap,
        p.2 - p.1 = (target_height : Int))
    ∧ gridSegments 3000 1000 0 = [(0, 1000), (1000, 2000), (2000, 3000)] := by
  refine ⟨by simp [gridSegments], ?_, ?_, by rfl⟩
  · intro i hi
    have hbot : (i : Int) * target_height - (i : Int) * overlap + target_height
        ≤ (img_height : Int) := by
      have h1 : (i + 1) * target_height ≤ img_height :=
        Nat.le_trans (Nat.mul_le_mul_right _ (Nat.succ_le_of_lt hi))
          (Nat.div_mul_le_self img_height target_height)
      have h1' : ((i : Int) + 1) * (target_height : Int) ≤ (img_height : Int) := by
        exact_mod_cast h1
      have h2 : (0 : Int) ≤ (i : Int) * (overlap : Int) :=
        mul_nonneg (Int.natCast_nonneg i) (Int.natCast_nonneg overlap)
      nlinarith
    refine ⟨?_, hbot⟩
    simp [gridSegments, List.getElem?_map, List.getElem?_range, hi,
      gridCrop_in_range img_height target_height overlap i hi]
  · intro p hp
    simp only [gridSegments, List.mem_map, List.mem_range] at hp
    obtain ⟨i, hi, rfl⟩ := hp
    rw [gridCrop_in_range img_height target_height overlap i hi]
    ring

/-- Witness for C8 at the spec's concrete grid scenario. -/
theorem grid_planner_shape_witness :
    (gridSegments 3000 1000 0).length = 3000 / 1000
    ∧ gridSegments 3000 1000 0 = [(0, 1000), (1000, 2000), (2000, 3000)] :=
  ⟨(grid_planner_shape 3000 1000 0 (by decide)).1,
   (grid_planner_shape 3000 1000 0 (by decide)).2.2.2⟩

/-! ### Size-suffix artifact emission -/

/-- Appending a distinct suffix to the same stem gives distinct
filenames. -/
lemma append_jpg_ne_append_size_jpg (s : String) :
    s ++ ".jpg" ≠ s ++ "-size.jpg" := by
  intro h
  have hlen := congrArg String.length h
  simp only [String.length_append] at hlen
  have h4 : (".jpg" : String).length = 4 := rfl
  have h9 : ("-size.jpg" : String).length = 9 := rfl
  omega

/-- C6: a surviving segment whose index is in the size-suffix set emits
exactly two artifacts — the base one (suffix flag `false`) and the
`-size` one (suffix flag `true`) — with identical crop box and pixel
dimensions but different filenames; a surviving segment not in the set
emits exactly one artifact, the base one.  The last conjunct ties the
emission to the planner: the surviving branch of the split loop
contributes exactly these artifacts, in order, before the rest of the
plan. -/
theorem size_suffix_artifacts (sku : String)
    (img_width idx top bottom : Nat) (size_segments : List Nat) :
    ((idx ∈ size_segments →
      ∃ e₁ e₂, emitSegment sku img_width idx top bottom (idx ∈ size_segments)
          = [e₁, e₂]
        ∧ e₁.crop_box = e₂.crop_box
        ∧ e₁.dimensions = e₂.dimensions
        ∧ e₁.has_size_suffix = false
        ∧ e₂.has_size_suffix = true
        ∧ e₁.filename ≠ e₂.filename
        ∧ e₁.index = idx ∧ e₂.index = idx)
    ∧ (idx ∉ size_segments →
      ∃ e, emitSegment sku img_width idx top bottom (idx ∈ size_segments) = [e]
        ∧ e.has_size_suffix = false ∧ e.index = idx))
    ∧ ∀ (skip_areas : List SkipArea) (excluded_segments : List Nat)
        (rest : List (Nat × Nat)),
        idx ∉ excluded_segments →
        isInSkipArea top bottom skip_areas = false →
        (planSegments sku img_width skip_areas excluded_segments size_segments
            ((top, bottom) :: rest) idx).1
          = emitSegment sku img_width idx top bottom (idx ∈ size_segments)
            ++ (planSegments sku img_width skip_areas excluded_segments
                size_segments rest (idx + 1)).1 := by
  refine ⟨⟨?_, ?_⟩, ?_⟩
  · intro hmem
    rw [show (decide (idx ∈ size_segments)) = true from decide_eq_true hmem]
    exact ⟨_, _, rfl, rfl, rfl, rfl, rfl,
      append_jpg_ne_append_size_jpg (sku ++ "_" ++ pad3 idx), rfl, rfl⟩
  · intro hmem
    rw [show (decide (idx ∈ size_segments)) = false from decide_eq_false hmem]
    exact ⟨_, rfl, rfl, rfl⟩
  · intro skip_areas excluded_segments rest hex hskip
    simp [planSegments, hex, hskip]

/-- Witness for C6 with the size-suffix set `[1]` at index 1 and at
index 2. -/
theorem size_suffix_artifacts_witness :
    (∃ e₁ e₂, emitSegment "SKU1" 100 1 0 1000 ((1 : Nat) ∈ [(1 : Nat)])
        = [e₁, e₂]
      ∧ e₁.crop_box = e₂.crop_box
      ∧ e₁.dimensions = e₂.dimensions
      ∧ e₁.has_size_suffix = false
      ∧ e₂.has_size_suffix = true
      ∧ e₁.filename ≠ e₂.filename
      ∧ e₁.index = 1 ∧ e₂.index = 1)
    ∧ (∃ e, emitSegment "SKU1" 100 2 1000 2000 ((2 : Nat) ∈ [(1 : Nat)]) = [e]
      ∧ e.has_size_suffix = false ∧ e.index = 2) :=
  ⟨(size_suffix_artifacts "SKU1" 100 1 0 1000 [1]).1.1 (by decide),
   (size_suffix_artifacts "SKU1" 100 2 1000 2000 [1]).1.2 (by decide)⟩

/-! ### Error handling of the grid transform -/

/-- C7 counterexample: two error paths escape the transform boundary as
exceptions instead of returning a structured failure — an unsupported
output format (lines 78-79 sit before the `try`), and a filesystem
failure in the unguarded output-directory creation (lines 86-87, also
before the `try`) even with a supported format; and the structured
failure that *is* returned for an in-`try` failure carries only the
message — not the source path (the path is attached by callers,
line 30 / 176). -/
theorem unsupported_format_raises :
    split_image [("instagram_square", 1080, 1080), ("custom", 800, 600)] 0
        "photo" "webp_card" (Except.ok ()) (Except.ok (1080, 3000))
      = PyOutcome.raised "未対応フォーマット: webp_card"
    ∧ split_image [("instagram_square", 1080, 1080), ("custom", 800, 600)] 0
        "photo" "instagram_square"
        (Except.error "Permission denied: output/instagram_square")
        (Except.ok (1080, 3000))
      = PyOutcome.raised "Permission denied: output/instagram_square"
    ∧ split_image [("instagram_square", 1080, 1080), ("custom", 800, 600)] 0
        "photo" "instagram_square" (Except.ok ())
        (Except.error "cannot identify image file")
      = PyOutcome.failure "cannot identify image file" :=
  ⟨rfl, rfl, rfl⟩

/-- C7 amended: failures inside the guarded region (unreadable or corrupt
source, write failure while cropping/saving) surface as a structured
failure carrying the message only, and once the output format is
supported *and* the output directory was created, `split_image` never
raises; but two error paths do raise past the `split_image` boundary: an
unsupported output format, and a filesystem failure in the unguarded
output-directory creation — the latter with a supported format.  The
source path is attached one level up: `process_single_image` catches
everything, including both raising paths, and always records
`source_file`. -/
theorem split_image_failure_surface (config : FormatTable) (overlap : Nat)
    (base_name output_format : String) (mkdir : Except String Unit)
    (load : Except String (Nat × Nat)) :
    (config.lookup output_format = none →
      split_image config overlap base_name output_format mkdir load
        = PyOutcome.raised ("未対応フォーマット: " ++ output_format))
    ∧ (∀ dims, config.lookup output_format = some dims →
        ∀ e, mkdir = Except.error e →
          split_image config overlap base_name output_format mkdir load
            = PyOutcome.raised e)
    ∧ (∀ dims, config.lookup output_format = some dims →
        mkdir = Except.ok () →
        (∀ e, load = Except.error e →
          split_image config overlap base_name output_format mkdir load
            = PyOutcome.failure e)
        ∧ ∀ msg, split_image config overlap base_name output_format mkdir load
            ≠ PyOutcome.raised msg)
    ∧ (process_single_image config overlap base_name output_format mkdir
        load).source_file = base_name := by
  refine ⟨?_, ?_, ?_, ?_⟩
  · intro hnone
    simp [split_image, hnone]
  · intro dims hsome e hmk
    simp [split_image, hsome, hmk]
  · intro dims hsome hmk
    constructor
    · intro e herr
      simp [split_image, hsome, hmk, herr]
    · intro msg
      cases load with
      | error e => simp [split_image, hsome, hmk]
      | ok wh => simp [split_image, hsome, hmk]
  · simp [process_single_image]
    cases h : split_image config overlap base_name output_format mkdir load
      <;> rfl

/-- Witness for C7 amended, at a concrete configuration: all three
hypothesis-bearing conjuncts exercised. -/
theorem split_image_failure_surface_witness :
    split_image [("custom", 800, 600)] 0 "photo" "gone" (Except.ok ())
        (Except.ok (800, 1200))
      = PyOutcome.raised "未対応フォーマット: gone"
    ∧ split_image [("custom", 800, 600)] 0 "photo" "custom"
        (Except.error "Permission denied") (Except.ok (800, 1200))
      = PyOutcome.raised "Permission denied"
    ∧ split_image [("custom", 800, 600)] 0 "photo" "custom" (Except.ok ())
        (Except.error "disk full")
      = PyOutcome.failure "disk full" :=
  ⟨(split_image_failure_surface [("custom", 800, 600)] 0 "photo" "gone"
      (Except.ok ()) (Except.ok (800, 1200))).1 rfl,
   (split_image_failure_surface [("custom", 800, 600)] 0 "photo" "custom"
      (Except.error "Permission denied") (Except.ok (800, 1200))).2.1
      (800, 600) rfl "Permission denied" rfl,
   ((split_image_failure_surface [("custom", 800, 600)] 0 "photo" "custom"
      (Except.ok ()) (Except.error "disk full")).2.2.1
      (800, 600) rfl rfl).1 "disk full" rfl⟩

/-! ### Segment index numbering under exclusion -/

/-- Step equation of the split loop: an excluded index is counted and
skipped. -/
lemma planSegments_cons_excluded (sku : String) (img_width : Nat)
    (skip_areas : List SkipArea) (excluded_segments size_segments : List Nat)
    (top bottom : Nat) (rest : List (Nat × Nat)) (idx : Nat)
    (h : idx ∈ excluded_segments) :
    planSegments sku img_width skip_areas excluded_segments size_segments
        ((top, bottom) :: rest) idx
      = ((planSegments sku img_width skip_areas excluded_segments size_segments
            rest (idx + 1)).1,
         (planSegments sku img_width skip_areas excluded_segments size_segments
            rest (idx + 1)).2 + 1) := by
  rcases hrec : planSegments sku img_width skip_areas excluded_segments
    size_segments rest (idx + 1) with ⟨info, cnt⟩
  simp [planSegments, h, hrec]

/-- Step equation of the split loop: a skip-area overlap drops the pair
without counting it as excluded. -/
lemma planSegments_cons_skip (sku : String) (img_width : Nat)
    (skip_areas : List SkipArea) (excluded_segments size_segments : List Nat)
    (top bottom : Nat) (rest : List (Nat × Nat)) (idx : Nat)
    (h1 : idx ∉ excluded_segments) (h2 : isInSkipArea top bottom skip_areas = true) :
    planSegments sku img_width skip_areas excluded_segments size_segments
        ((top, bottom) :: rest) idx
      = planSegments sku img_width skip_areas excluded_segments size_segments
          rest (idx + 1) := by
  simp [planSegments, h1, h2]

/-- Step equation of the split loop: a surviving pair emits its artifacts
before the rest of the plan. -/
lemma planSegments_cons_survive (sku : String) (img_width : Nat)
    (skip_areas : List SkipArea) (excluded_segments size_segments : List Nat)
    (top bottom : Nat) (rest : List (Nat × Nat)) (idx : Nat)
    (h1 : idx ∉ excluded_segments) (h2 : isInSkipArea top bottom skip_areas = false) :
    planSegments sku img_width skip_areas excluded_segments size_segments
        ((top, bottom) :: rest) idx
      = (emitSegment sku img_width idx top bottom (decide (idx ∈ size_segments))
          ++ (planSegments sku img_width skip_areas excluded_segments
              size_segments rest (idx + 1)).1,
         (planSegments sku img_width skip_areas excluded_segments size_segments
            rest (idx + 1)).2) := by
  rcases hrec : planSegments sku img_width skip_areas excluded_segments
    size_segments rest (idx + 1) with ⟨info, cnt⟩
  simp [planSegments, h1, h2, hrec]

/-- The artifacts of one surviving segment contain exactly one base
(non-`-size`) entry, and its recorded index is the assigned one. -/
lemma emitSegment_base_indices (sku : String) (img_width idx top bottom : Nat)
    (hasSize : Bool) :
    ((emitSegment sku img_width idx top bottom hasSize).filter
        (fun e => !e.has_size_suffix)).map (fun e => e.index) = [idx] := by
  cases hasSize <;> rfl

/-- Characterization of the assigned indices: the base artifacts of the
split loop started at `idx` carry exactly the indices `idx + k` of the
surviving pairs, where `k` is the pair's 0-based position — every pair
consumes an index whether or not it is dropped. -/
lemma planSegments_base_indices (sku : String) (img_width : Nat)
    (skip_areas : List SkipArea) (excluded_segments size_segments : List Nat) :
    ∀ (ps : List (Nat × Nat)) (idx : Nat),
      ((planSegments sku img_width skip_areas excluded_segments size_segments
          ps idx).1.filter (fun e => !e.has_size_suffix)).map (fun e => e.index)
        = ((List.range' idx ps.length).zip ps).filterMap
            (fun ip => if ip.1 ∉ excluded_segments
                ∧ isInSkipArea ip.2.1 ip.2.2 skip_areas = false
              then some ip.1 else none) := by
  intro ps
  induction ps with
  | nil => intro idx; rfl
  | cons p rest ih =>
    intro idx
    rcases p with ⟨top, bottom⟩
    have hzip : (List.range' idx (rest.length + 1)).zip ((top, bottom) :: rest)
        = (idx, (top, bottom)) :: (List.range' (idx + 1) rest.length).zip rest := rfl
    by_cases h1 : idx ∈ excluded_segments
    · rw [show ((top, bottom) :: rest).length = rest.length + 1 from rfl, hzip,
        planSegments_cons_excluded sku img_width skip_areas excluded_segments
          size_segments top bottom rest idx h1]
      simp only [List.filterMap_cons, h1, not_true_eq_false, false_and, if_false]
      exact ih (idx + 1)
    · by_cases h2 : isInSkipArea top bottom skip_areas
      · rw [show ((top, bottom) :: rest).length = rest.length + 1 from rfl, hzip,
          planSegments_cons_skip sku img_width skip_areas excluded_segments
            size_segments top bottom rest idx h1 h2]
        simp only [List.filterMap_cons, h2, Bool.true_eq_false, and_false, if_false]
        exact ih (idx + 1)
      · rw [show ((top, bottom) :: rest).length = rest.length + 1 from rfl, hzip,
          planSegments_cons_survive sku img_width skip_areas excluded_segments
            size_segments top bottom rest idx h1 (Bool.not_eq_true _ ▸ h2)]
        simp only [List.filterMap_cons, h1, not_false_iff,
          Bool.not_eq_true _ ▸ h2, and_self, if_true, List.filter_append,
          List.map_append, emitSegment_base_indices]
        rw [ih (idx + 1)]
        rfl

/-- Index assignment commutes with exclusion filtering: the surviving
indices under an exclusion set are exactly the surviving indices with no
exclusions, with the excluded ones filtered out afterwards — no
renumbering.  Stated over the zipped index/pair list. -/
lemma filterMap_indices_filter (skip_areas : List SkipArea)
    (excluded_segments : List Nat) :
    ∀ (l : List (Nat × (Nat × Nat))),
      l.filterMap (fun ip => if ip.1 ∉ excluded_segments
          ∧ isInSkipArea ip.2.1 ip.2.2 skip_areas = false
        then some ip.1 else none)
      = (l.filterMap (fun ip => if isInSkipArea ip.2.1 ip.2.2 skip_areas = false
          then some ip.1 else none)).filter
          (fun i => decide (i ∉ excluded_segments)) := by
  intro l
  induction l with
  | nil => rfl
  | cons ip l ih =>
    by_cases h1 : ip.1 ∈ excluded_segments
    · by_cases h2 : isInSkipArea ip.2.1 ip.2.2 skip_areas = false
      · simp [List.filterMap_cons, h1, h2, ih, List.filter_cons]
      · simp [List.filterMap_cons, h1, h2, ih]
    · by_cases h2 : isInSkipArea ip.2.1 ip.2.2 skip_areas = false
      · simp [List.filterMap_cons, h1, h2, ih, List.filter_cons]
      · simp [List.filterMap_cons, h1, h2, ih]

/-- Inversion of a successful `split_by_positions` call. -/
lemma split_by_positions_ok (sku : String) (img_width img_height : Nat)
    (cut_positions : List Nat) (skip_areas : List SkipArea)
    (excluded_segments size_segments : List Nat) (r : SplitResult)
    (h : split_by_positions sku img_width img_height cut_positions skip_areas
        excluded_segments size_segments = Except.ok r) :
    r.details = (planSegments sku img_width skip_areas excluded_segments
        size_segments
        (boundaryPairs (sorted_positions cut_positions img_height)) 1).1 := by
  by_cases h1 : cut_positions.isEmpty
  · simp [split_by_positions, h1] at h
  · by_cases h2 : sku.isEmpty
    · simp [split_by_positions, h1, h2] at h
    · simp only [split_by_positions, h1, h2, Bool.false_eq_true, if_false,
        Except.ok.injEq] at h
      rw [← h]

/-- C1: the planner assigns segment indices 1, 2, 3, … to the consecutive
boundary pairs of `sorted([0] + cuts + [height])` in order, incrementing
for every pair whether or not the pair is dropped (first conjunct: the
surviving base artifacts carry exactly the indices `1 + k` of the
surviving 0-based pair positions); hence the index of a surviving segment
is unchanged by which other segments are dropped (second conjunct: the
surviving indices under exclusion set `ex` are the surviving indices of
the exclusion-free run with the excluded indices filtered out — dropping
segment 2 never renumbers segment 3); and on the concrete scenario
(height 3000, cuts `[1000, 2000]`, `excluded_segments = [2]`) the
surviving segments are #1 and #3 only, with dropped-by-exclusion
count 1. -/
theorem segment_numbering_stable (sku : String) (img_width img_height : Nat)
    (cut_positions : List Nat) (skip_areas : List SkipArea)
    (excluded_segments size_segments : List Nat) (r r₀ : SplitResult)
    (h : split_by_positions sku img_width img_height cut_positions skip_areas
        excluded_segments size_segments = Except.ok r)
    (h₀ : split_by_positions sku img_width img_height cut_positions skip_areas
        [] size_segments = Except.ok r₀) :
    ((r.details.filter (fun e => !e.has_size_suffix)).map (fun e => e.index)
      = ((List.range' 1
            (boundaryPairs (sorted_positions cut_positions img_height)).length).zip
          (boundaryPairs (sorted_positions cut_positions img_height))).filterMap
          (fun ip => if ip.1 ∉ excluded_segments
              ∧ isInSkipArea ip.2.1 ip.2.2 skip_areas = false
            then some ip.1 else none))
    ∧ ((r.details.filter (fun e => !e.has_size_suffix)).map (fun e => e.index)
      = ((r₀.details.filter (fun e => !e.has_size_suffix)).map (fun e => e.index)).filter
          (fun i => decide (i ∉ excluded_segments)))
    ∧ ((split_by_positions "SKU1" 100 3000 [1000, 2000] [] [2] []).toOption.map
        (fun s => (s.details.map (fun e => e.index), s.excluded_segments))
      = some ([1, 3], 1)) := by
  have hchar : (r.details.filter (fun e => !e.has_size_suffix)).map (fun e => e.index)
      = ((List.range' 1
            (boundaryPairs (sorted_positions cut_positions img_height)).length).zip
          (boundaryPairs (sorted_positions cut_positions img_height))).filterMap
          (fun ip => if ip.1 ∉ excluded_segments
              ∧ isInSkipArea ip.2.1 ip.2.2 skip_areas = false
            then some ip.1 else none) := by
    rw [split_by_positions_ok sku img_width img_height cut_positions skip_areas
      excluded_segments size_segments r h]
    exact planSegments_base_indices sku img_width skip_areas excluded_segments
      size_segments _ 1
  have hchar₀ : (r₀.details.filter (fun e => !e.has_size_suffix)).map (fun e => e.index)
      = ((List.range' 1
            (boundaryPairs (sorted_positions cut_positions img_height)).length).zip
          (boundaryPairs (sorted_positions cut_positions img_height))).filterMap
          (fun ip => if isInSkipArea ip.2.1 ip.2.2 skip_areas = false
            then some ip.1 else none) := by
    rw [split_by_positions_ok sku img_width img_height cut_positions skip_areas
      [] size_segments r₀ h₀]
    rw [planSegments_base_indices sku img_width skip_areas [] size_segments _ 1]
    simp only [List.not_mem_nil, not_false_iff, true_and]
  refine ⟨hchar, ?_, by rfl⟩
  rw [hchar, hchar₀, filterMap_indices_filter]

/-- Witness for C1: the spec's concrete exclusion scenario. -/
theorem segment_numbering_stable_witness :
    (split_by_positions "SKU1" 100 3000 [1000, 2000] [] [2] []).toOption.map
        (fun s => (s.details.map (fun e => e.index), s.excluded_segments))
      = some ([1, 3], 1) :=
  (segment_numbering_stable "SKU1" 100 3000 [1000, 2000] [] [2] []
    { splits_created := 2
      skipped_areas := 0
      excluded_segments := 1
      sku := "SKU1"
      details :=
        [{ index := 1, filename := "SKU1_001.jpg", crop_box := (0, 0, 100, 1000)
           dimensions := (100, 1000), sku := "SKU1", has_size_suffix := false },
         { index := 3, filename := "SKU1_003.jpg", crop_box := (0, 2000, 100, 3000)
           dimensions := (100, 1000), sku := "SKU1", has_size_suffix := false }] }
    { splits_created := 3
      skipped_areas := 0
      excluded_segments := 0
      sku := "SKU1"
      details :=
        [{ index := 1, filename := "SKU1_001.jpg", crop_box := (0, 0, 100, 1000)
           dimensions := (100, 1000), sku := "SKU1", has_size_suffix := false },
         { index := 2, filename := "SKU1_002.jpg", crop_box := (0, 1000, 100, 2000)
           dimensions := (100, 1000), sku := "SKU1", has_size_suffix := false },
         { index := 3, filename := "SKU1_003.jpg", crop_box := (0, 2000, 100, 3000)
           dimensions := (100, 1000), sku := "SKU1", has_size_suffix := false }] }
    rfl rfl).2.2

/-! ### Global numbering across a batch -/

/-- Step equation of the global-numbering loop: an excluded index is
counted and skipped; the global counter does not advance. -/
lemma planSegmentsGlobal_cons_excluded (sku : String) (img_width : Nat)
    (skip_areas : List SkipArea) (excluded_segments size_segments : List Nat)
    (top bottom : Nat) (rest : List (Nat × Nat)) (idx gidx : Nat)
    (h : idx ∈ excluded_segments) :
    planSegmentsGlobal sku img_width skip_areas excluded_segments size_segments
        ((top, bottom) :: rest) idx gidx
      = ((planSegmentsGlobal sku img_width skip_areas excluded_segments
            size_segments rest (idx + 1) gidx).1,
         (planSegmentsGlobal sku img_width skip_areas excluded_segments
            size_segments rest (idx + 1) gidx).2 + 1) := by
  rcases hrec : planSegmentsGlobal sku img_width skip_areas excluded_segments
    size_segments rest (idx + 1) gidx with ⟨info, cnt⟩
  simp [planSegmentsGlobal, h, hrec]

/-- Step equation of the global-numbering loop: a skip-area overlap drops
the pair; the global counter does not advance. -/
lemma planSegmentsGlobal_cons_skip (sku : String) (img_width : Nat)
    (skip_areas : List SkipArea) (excluded_segments size_segments : List Nat)
    (top bottom : Nat) (rest : List (Nat × Nat)) (idx gidx : Nat)
    (h1 : idx ∉ excluded_segments) (h2 : isInSkipArea top bottom skip_areas = true) :
    planSegmentsGlobal sku img_width skip_areas excluded_segments size_segments
        ((top, bottom) :: rest) idx gidx
      = planSegmentsGlobal sku img_width skip_areas excluded_segments
          size_segments rest (idx + 1) gidx := by
  simp [planSegmentsGlobal, h1, h2]

/-- Step equation of the global-numbering loop: a surviving pair emits
its artifacts under the global index, which then advances by exactly
one. -/
lemma planSegmentsGlobal_cons_survive (sku : String) (img_width : Nat)
    (skip_areas : List SkipArea) (excluded_segments size_segments : List Nat)
    (top bottom : Nat) (rest : List (Nat × Nat)) (idx gidx : Nat)
    (h1 : idx ∉ excluded_segments) (h2 : isInSkipArea top bottom skip_areas = false) :
    planSegmentsGlobal sku img_width skip_areas excluded_segments size_segments
        ((top, bottom) :: rest) idx gidx
      = (emitSegment sku img_width gidx top bottom (decide (idx ∈ size_segments))
          ++ (planSegmentsGlobal sku img_width skip_areas excluded_segments
              size_segments rest (idx + 1) (gidx + 1)).1,
         (planSegmentsGlobal sku img_width skip_areas excluded_segments
            size_segments rest (idx + 1) (gidx + 1)).2) := by
  rcases hrec : planSegmentsGlobal sku img_width skip_areas excluded_segments
    size_segments rest (idx + 1) (gidx + 1) with ⟨info, cnt⟩
  simp [planSegmentsGlobal, h1, h2, hrec]

/-- The base artifacts of the global-numbering loop carry consecutive
global indices starting at the seed: each non-dropped segment advances
the global counter exactly once (its `-size` duplicate shares the
index). -/
lemma planSegmentsGlobal_base_indices (sku : String) (img_width : Nat)
    (skip_areas : List SkipArea) (excluded_segments size_segments : List Nat) :
    ∀ (ps : List (Nat × Nat)) (idx gidx : Nat),
      ((planSegmentsGlobal sku img_width skip_areas excluded_segments
          size_segments ps idx gidx).1.filter
          (fun e => !e.has_size_suffix)).map (fun e => e.index)
        = List.range' gidx
            (survivingCount skip_areas excluded_segments ps idx) := by
  intro ps
  induction ps with
  | nil => intro idx gidx; rfl
  | cons p rest ih =>
    intro idx gidx
    rcases p with ⟨top, bottom⟩
    by_cases h1 : idx ∈ excluded_segments
    · rw [planSegmentsGlobal_cons_excluded sku img_width skip_areas
        excluded_segments size_segments top bottom rest idx gidx h1]
      have hsc : survivingCount skip_areas excluded_segments
          ((top, bottom) :: rest) idx
          = survivingCount skip_areas excluded_segments rest (idx + 1) := by
        simp [survivingCount, h1]
      rw [hsc]
      exact ih (idx + 1) gidx
    · by_cases h2 : isInSkipArea top bottom skip_areas
      · rw [planSegmentsGlobal_cons_skip sku img_width skip_areas
          excluded_segments size_segments top bottom rest idx gidx h1 h2]
        have hsc : survivingCount skip_areas excluded_segments
            ((top, bottom) :: rest) idx
            = survivingCount skip_areas excluded_segments rest (idx + 1) := by
          simp [survivingCount, h2]
        rw [hsc]
        exact ih (idx + 1) gidx
      · have h2' : isInSkipArea top bottom skip_areas = false :=
          Bool.not_eq_true _ ▸ h2
        rw [planSegmentsGlobal_cons_survive sku img_width skip_areas
          excluded_segments size_segments top bottom rest idx gidx h1 h2']
        have hsc : survivingCount skip_areas excluded_segments
            ((top, bottom) :: rest) idx
            = survivingCount skip_areas excluded_segments rest (idx + 1) + 1 := by
          simp only [survivingCount, h1, h2', not_false_iff, Bool.false_eq_true,
            and_self, if_true]
          omega
        rw [hsc, List.range'_succ]
        simp only [List.filter_append, List.map_append, emitSegment_base_indices]
        rw [ih (idx + 1) (gidx + 1)]
        rfl

/-- Artifact count of the global-numbering loop: non-dropped segments
plus one extra artifact per surviving size-suffixed segment. -/
lemma planSegmentsGlobal_length (sku : String) (img_width : Nat)
    (skip_areas : List SkipArea) (excluded_segments size_segments : List Nat) :
    ∀ (ps : List (Nat × Nat)) (idx gidx : Nat),
      (planSegmentsGlobal sku img_width skip_areas excluded_segments
          size_segments ps idx gidx).1.length
        = survivingCount skip_areas excluded_segments ps idx
          + survivingSizeCount skip_areas excluded_segments size_segments ps idx := by
  intro ps
  induction ps with
  | nil => intro idx gidx; rfl
  | cons p rest ih =>
    intro idx gidx
    rcases p with ⟨top, bottom⟩
    by_cases h1 : idx ∈ excluded_segments
    · rw [planSegmentsGlobal_cons_excluded sku img_width skip_areas
        excluded_segments size_segments top bottom rest idx gidx h1]
      have hsc : survivingCount skip_areas excluded_segments
          ((top, bottom) :: rest) idx
          = survivingCount skip_areas excluded_segments rest (idx + 1) := by
        simp [survivingCount, h1]
      have hssc : survivingSizeCount skip_areas excluded_segments size_segments
          ((top, bottom) :: rest) idx
          = survivingSizeCount skip_areas excluded_segments size_segments rest
              (idx + 1) := by
        simp [survivingSizeCount, h1]
      rw [hsc, hssc]
      exact ih (idx + 1) gidx
    · by_cases h2 : isInSkipArea top bottom skip_areas
      · rw [planSegmentsGlobal_cons_skip sku img_width skip_areas
          excluded_segments size_segments top bottom rest idx gidx h1 h2]
        have hsc : survivingCount skip_areas excluded_segments
            ((top, bottom) :: rest) idx
            = survivingCount skip_areas excluded_segments rest (idx + 1) := by
          simp [survivingCount, h2]
        have hssc : survivingSizeCount skip_areas excluded_segments size_segments
            ((top, bottom) :: rest) idx
            = survivingSizeCount skip_areas excluded_segments size_segments rest
                (idx + 1) := by
          simp [survivingSizeCount, h2]
        rw [hsc, hssc]
        exact ih (idx + 1) gidx
      · have h2' : isInSkipArea top bottom skip_areas = false :=
          Bool.not_eq_true _ ▸ h2
        rw [planSegmentsGlobal_cons_survive sku img_width skip_areas
          excluded_segments size_segments top bottom rest idx gidx h1 h2']
        rw [List.length_append, ih (idx + 1) (gidx + 1)]
        have hsc : survivingCount skip_areas excluded_segments
            ((top, bottom) :: rest) idx
            = survivingCount skip_areas excluded_segments rest (idx + 1) + 1 := by
          simp only [survivingCount, h1, h2', not_false_iff, Bool.false_eq_true,
            and_self, if_true]
          omega
        rw [hsc]
        by_cases h3 : idx ∈ size_segments
        · have hel : (emitSegment sku img_width gidx top bottom
              (decide (idx ∈ size_segments))).length = 2 := by
            rw [decide_eq_true h3]; rfl
          have hssc : survivingSizeCount skip_areas excluded_segments
              size_segments ((top, bottom) :: rest) idx
              = survivingSizeCount skip_areas excluded_segments size_segments
                  rest (idx + 1) + 1 := by
            simp only [survivingSizeCount, h1, h2', h3, not_false_iff,
              Bool.false_eq_true, not_true_eq_false, and_self, if_true]
            omega
          rw [hel, hssc]
          omega
        · have hel : (emitSegment sku img_width gidx top bottom
              (decide (idx ∈ size_segments))).length = 1 := by
            rw [decide_eq_false h3]; rfl
          have hssc : survivingSizeCount skip_areas excluded_segments
              size_segments ((top, bottom) :: rest) idx
              = survivingSizeCount skip_areas excluded_segments size_segments
                  rest (idx + 1) := by
            simp [survivingSizeCount, h3]
          rw [hel, hssc]
          omega

/-- Inversion of a successful `split_with_global_numbering` call. -/
lemma split_with_global_numbering_ok (sku : String) (img_width img_height : Nat)
    (cut_positions : List Nat) (skip_areas : List SkipArea)
    (excluded_segments size_segments : List Nat) (start_index : Nat)
    (r : SplitResult)
    (h : split_with_global_numbering sku img_width img_height cut_positions
        skip_areas excluded_segments size_segments start_index = Except.ok r) :
    r.details = (planSegmentsGlobal sku img_width skip_areas excluded_segments
        size_segments (boundaryPairs (sorted_positions cut_positions img_height))
        1 start_index).1
    ∧ r.splits_created = (planSegmentsGlobal sku img_width skip_areas
        excluded_segments size_segments
        (boundaryPairs (sorted_positions cut_positions img_height))
        1 start_index).1.length := by
  by_cases h1 : cut_positions.isEmpty
  · simp [split_with_global_numbering, h1] at h
  · simp only [split_with_global_numbering, h1, Bool.false_eq_true, if_false,
      Except.ok.injEq] at h
    rw [← h]
    exact ⟨rfl, rfl⟩

/-- Step equation of the batch loop: a successful per-file result is
recorded with its start index and advances the carried index by the
file's `splits_created` (the artifact count). -/
lemma batchGlobalRuns_cons_ok (sku : String) (cut_positions : List Nat)
    (skip_areas : List SkipArea) (excluded_segments size_segments : List Nat)
    (w h : Nat) (rest : List (Nat × Nat)) (g : Nat) (r : SplitResult)
    (hok : split_with_global_numbering sku w h cut_positions skip_areas
        excluded_segments size_segments g = Except.ok r) :
    batchGlobalRuns sku cut_positions skip_areas excluded_segments size_segments
        ((w, h) :: rest) g
      = (g, Except.ok r) ::
          batchGlobalRuns sku cut_positions skip_areas excluded_segments
            size_segments rest (g + r.splits_created) := by
  simp [batchGlobalRuns, hok]

/-- C4 counterexample: batch of two identical images of height 2000, one
cut at 1000, size suffix on segment 1.  File 1 has two non-dropped
segments (base indices `[1, 2]`, with a `-size` duplicate of index 1), so
under the claim the index carried into file 2 would be `1 + 2 = 3`; the
code advances the carried index by `splits_created = 3` (which counts the
size-suffix duplicate a second time), so file 2 actually starts at 4 and
emits indices `[4, 4, 5]` — index 3 is skipped entirely. -/
theorem global_numbering_counterexample :
    ((batch_process "SKU1" [(100, 2000), (100, 2000)] [1000] [] [] [1]).map
        (fun p => (p.1, p.2.toOption.map (fun r => r.details.map (fun e => e.index))))
      = [(1, some [1, 1, 2]), (4, some [4, 4, 5])])
    ∧ ((batch_process "SKU1" [(100, 2000), (100, 2000)] [1000] [] [] [1]).head?.map
        (fun p => p.2.toOption.map
          (fun r => (r.details.filter (fun e => !e.has_size_suffix)).length))
      = some (some 2))
    ∧ (4 : Nat) ≠ 1 + 2 := by
  refine ⟨by rfl, by rfl, by decide⟩

/-- C4 amended: in global-numbering batch mode the carried index is
advanced once per non-dropped segment *within* a file — the base
artifacts of a file started at `g` carry the consecutive global indices
`g, g+1, …` and a size-suffix duplicate shares its segment's index — and
per-file local segment indexing restarts at 1 for exclusion/skip/size
evaluation (the characterizations below count survivors from local
index 1); but *across* files `batch_process` advances the carried index
by `splits_created`, the artifact count, which also counts each
size-suffix duplicate, so the next file's start index skips one number
per size-suffixed surviving segment of the file before it. -/
theorem global_numbering_carry (sku : String) (w h : Nat)
    (cut_positions : List Nat) (skip_areas : List SkipArea)
    (excluded_segments size_segments : List Nat) (g : Nat) (r : SplitResult)
    (rest : List (Nat × Nat))
    (hok : split_with_global_numbering sku w h cut_positions skip_areas
        excluded_segments size_segments g = Except.ok r) :
    ((r.details.filter (fun e => !e.has_size_suffix)).map (fun e => e.index)
      = List.range' g
          (survivingCount skip_areas excluded_segments
            (boundaryPairs (sorted_positions cut_positions h)) 1))
    ∧ (r.splits_created
      = survivingCount skip_areas excluded_segments
          (boundaryPairs (sorted_positions cut_positions h)) 1
        + survivingSizeCount skip_areas excluded_segments size_segments
            (boundaryPairs (sorted_positions cut_positions h)) 1)
    ∧ (batchGlobalRuns sku cut_positions skip_areas excluded_segments
          size_segments ((w, h) :: rest) g
      = (g, Except.ok r) ::
          batchGlobalRuns sku cut_positions skip_areas excluded_segments
            size_segments rest (g + r.splits_created)) := by
  obtain ⟨hdet, hsc⟩ := split_with_global_numbering_ok sku w h cut_positions
    skip_areas excluded_segments size_segments g r hok
  refine ⟨?_, ?_, batchGlobalRuns_cons_ok sku cut_positions skip_areas
    excluded_segments size_segments w h rest g r hok⟩
  · rw [hdet]
    exact planSegmentsGlobal_base_indices sku w skip_areas excluded_segments
      size_segments _ 1 g
  · rw [hsc]
    exact planSegmentsGlobal_length sku w skip_areas excluded_segments
      size_segments _ 1 g

/-- Witness for C4 amended, at the counterexample's first file. -/
theorem global_numbering_carry_witness :
    ((([{ index := 1, filename := "SKU1_001.jpg", crop_box := (0, 0, 100, 1000)
          dimensions := (100, 1000), sku := "SKU1", has_size_suffix := false },
        { index := 1, filename := "SKU1_001-size.jpg", crop_box := (0, 0, 100, 1000)
          dimensions := (100, 1000), sku := "SKU1", has_size_suffix := true },
        { index := 2, filename := "SKU1_002.jpg", crop_box := (0, 1000, 100, 2000)
          dimensions := (100, 1000), sku := "SKU1", has_size_suffix := false }] :
        List SegmentOutput).filter (fun e => !e.has_size_suffix)).map
        (fun e => e.index)
      = List.range' 1
          (survivingCount [] [] (boundaryPairs (sorted_positions [1000] 2000)) 1)) :=
  (global_numbering_carry "SKU1" 100 2000 [1000] [] [] [1] 1
    { splits_created := 3
      skipped_areas := 0
      excluded_segments := 0
      sku := "SKU1"
      details :=
        [{ index := 1, filename := "SKU1_001.jpg", crop_box := (0, 0, 100, 1000)
           dimensions := (100, 1000), sku := "SKU1", has_size_suffix := false },
         { index := 1, filename := "SKU1_001-size.jpg", crop_box := (0, 0, 100, 1000)
           dimensions := (100, 1000), sku := "SKU1", has_size_suffix := true },
         { index := 2, filename := "SKU1_002.jpg", crop_box := (0, 1000, 100, 2000)
           dimensions := (100, 1000), sku := "SKU1", has_size_suffix := false }] }
    [] rfl).1

end ImageCut

